import Mathlib

/-
Verification of the client-side session manager and session context of the
myfleet front-end (src/services/auth.ts and src/contexts/AuthContext.tsx).

Modelling choices:
- localStorage is a record with the three keys the code uses
  (auth_user, auth_token, auth_refresh_token); each key holds an optional value.
- The serialized user record (JSON.stringify output) is modelled as a record
  with one optional field per property the code ever writes; the JS object
  spread `{...a, f := v}` is field update, and spreading `null` yields the
  record with every field absent, exactly as in JS.
- Timestamps (Date.now(), Date.toISOString()) are modelled by their value in
  milliseconds since the epoch; ISO-8601 UTC strings are in an order-preserving
  bijection with these values. Calendar arithmetic (setDate, setMonth,
  setFullYear) follows the ECMAScript Date specification (MakeDay/DayFromYear),
  taken at UTC offset zero, over a DateTime of civil components.
- async functions are pure state-passing functions; a thrown error is an
  Except.error paired with the store as it was at the throw point.
-/

def msPerDay : Nat := 86400000

def isLeapYear (y : Nat) : Bool :=
  (y % 4 == 0 && y % 100 != 0) || y % 400 == 0

/-- Cumulative day count before 0-based month index `m` (ECMAScript
DayWithinYear table), with the leap-day adjustment from March on. -/
def daysBeforeMonth (leap : Bool) (m : Nat) : Nat :=
  let base :=
    if m = 0 then 0 else if m = 1 then 31 else if m = 2 then 59
    else if m = 3 then 90 else if m = 4 then 120 else if m = 5 then 151
    else if m = 6 then 181 else if m = 7 then 212 else if m = 8 then 243
    else if m = 9 then 273 else if m = 10 then 304 else 334
  if leap ∧ 2 ≤ m then base + 1 else base

/-- ECMAScript DayFromYear, valid for years from 1970 on. -/
def dayFromYear (y : Nat) : Nat :=
  365 * (y - 1970) + (y - 1969) / 4 - (y - 1901) / 100 + (y - 1601) / 400

/-- Civil components of a JS Date at UTC: year, 0-based month index,
1-based day of month, and milliseconds within the day. -/
structure DateTime where
  year : Nat
  month : Nat
  day : Nat
  msOfDay : Nat
deriving DecidableEq, Repr

/-- ECMAScript MakeDate(MakeDay(year, month, day), msOfDay): month overflow
rolls into later years, day overflow rolls into later months. -/
def DateTime.toMillis (dt : DateTime) : Nat :=
  let ym := dt.year + dt.month / 12
  let mn := dt.month % 12
  (dayFromYear ym + daysBeforeMonth (isLeapYear ym) mn + (dt.day - 1)) * msPerDay + dt.msOfDay

/-- Component ranges of any Date reading produced by a real post-epoch clock. -/
def DateTime.valid (dt : DateTime) : Bool :=
  decide (1970 ≤ dt.year) && decide (dt.month < 12) && decide (1 ≤ dt.day) &&
    decide (dt.day ≤ 31) && decide (dt.msOfDay < msPerDay)

/-- User as declared in src/services/auth.ts. -/
structure User where
  id : String
  email : String
  fullName : Option String
  phone : Option String
  isOnboarded : Bool
  subscribed : Bool
  subscriptionEnd : Option Nat
  emailUnverified : Option Bool
deriving DecidableEq, Repr

structure LoginCredentials where
  email : String
  password : String
deriving DecidableEq, Repr

structure SignUpData where
  email : String
  password : String
  fullName : Option String
  phone : Option String
deriving DecidableEq, Repr

/-- Serialized user object under the auth_user key: a JSON object whose
possible properties are everything the code ever writes there (the service
User fields plus the extra fields AuthContext merges in). Every field is
optional because JSON.stringify drops absent properties and the context can
write incomplete records. -/
structure StoredUser where
  id : Option String
  email : Option String
  fullName : Option String
  phone : Option String
  companyName : Option String
  panNumber : Option String
  isOnboarded : Option Bool
  subscribed : Option Bool
  subscriptionTier : Option String
  subscriptionEnd : Option Nat
  phoneVerified : Option Bool
  emailUnverified : Option Bool
deriving DecidableEq, Repr

/-- JSON object with no properties, the result of spreading a null value. -/
def StoredUser.empty : StoredUser :=
  ⟨none, none, none, none, none, none, none, none, none, none, none, none⟩

/-- JSON.stringify of a full service-level User record: mandatory fields are
always present, optional fields are present exactly when set. -/
def serializeUser (u : User) : StoredUser :=
  { StoredUser.empty with
    id := some u.id
    email := some u.email
    fullName := u.fullName
    phone := u.phone
    isOnboarded := some u.isOnboarded
    subscribed := some u.subscribed
    subscriptionEnd := u.subscriptionEnd
    emailUnverified := u.emailUnverified }

/-- Reading a stored object back at the User interface: defined exactly when
the mandatory User fields are present, in which case each field of the result
is the stored field. -/
def deserializeUser (su : StoredUser) : Option User :=
  match su.id, su.email, su.isOnboarded, su.subscribed with
  | some i, some e, some ob, some sb =>
      some { id := i, email := e, fullName := su.fullName, phone := su.phone,
             isOnboarded := ob, subscribed := sb,
             subscriptionEnd := su.subscriptionEnd, emailUnverified := su.emailUnverified }
  | _, _, _, _ => none

/-- localStorage restricted to the three keys of AuthService.STORAGE_KEYS:
auth_user, auth_token, auth_refresh_token. -/
structure Store where
  user : Option StoredUser
  token : Option String
  refreshToken : Option String
deriving DecidableEq, Repr

/-- Feature flags from src/config/flags.ts that the session code reads. -/
structure Features where
  USE_AMPLIFY_AUTH : Bool
  DEBUG_MODE : Bool
deriving DecidableEq, Repr

structure AuthResponse where
  user : User
  accessToken : String
  refreshToken : Option String
deriving DecidableEq, Repr

namespace AuthService

/-- Placeholder user synthesized by AuthService.login (auth.ts lines 74-83). -/
def placeholderLoginUser (now : DateTime) (credentials : LoginCredentials) : User :=
  { id := "placeholder-user-id"
    email := credentials.email
    fullName := some "John Doe"
    phone := some "+1234567890"
    isOnboarded := true
    subscribed := true
    subscriptionEnd := some (now.toMillis + 30 * 24 * 60 * 60 * 1000)
    emailUnverified := some false }

/-- Placeholder user synthesized by AuthService.signUp (auth.ts lines 119-127);
the JS empty-string fallback on absent fields is getD of the empty string. -/
def placeholderSignUpUser (now : DateTime) (data : SignUpData) : User :=
  { id := "placeholder-user-" ++ toString now.toMillis
    email := data.email
    fullName := some (data.fullName.getD "")
    phone := some (data.phone.getD "")
    isOnboarded := false
    subscribed := false
    subscriptionEnd := none
    emailUnverified := some true }

/-- AuthService.login: fails (the catch rewraps the message) when the Cognito
flag is on, otherwise stores the placeholder user and both tokens. -/
def login (FEATURES : Features) (now : DateTime) (credentials : LoginCredentials)
    (s : Store) : Except String AuthResponse × Store :=
  if FEATURES.USE_AMPLIFY_AUTH then
    (.error "Login failed: AWS Cognito authentication not yet implemented", s)
  else
    let user := placeholderLoginUser now credentials
    let accessToken := "placeholder-token-" ++ toString now.toMillis
    let refreshTok := "placeholder-refresh-" ++ toString now.toMillis
    (.ok { user := user, accessToken := accessToken, refreshToken := some refreshTok },
      { user := some (serializeUser user), token := some accessToken,
        refreshToken := some refreshTok })

/-- AuthService.signUp: analogous to login with the signUp placeholder user. -/
def signUp (FEATURES : Features) (now : DateTime) (data : SignUpData)
    (s : Store) : Except String AuthResponse × Store :=
  if FEATURES.USE_AMPLIFY_AUTH then
    (.error "Sign up failed: AWS Cognito registration not yet implemented", s)
  else
    let user := placeholderSignUpUser now data
    let accessToken := "placeholder-token-" ++ toString now.toMillis
    let refreshTok := "placeholder-refresh-" ++ toString now.toMillis
    (.ok { user := user, accessToken := accessToken, refreshToken := some refreshTok },
      { user := some (serializeUser user), token := some accessToken,
        refreshToken := some refreshTok })

/-- AuthService.logout: removes the three keys; the catch clause repeats the
same removals, so the operation is total and always yields the empty store. -/
def logout (_s : Store) : Store :=
  { user := none, token := none, refreshToken := none }

/-- AuthService.getCurrentUser: parse of the auth_user entry; none if absent. -/
def getCurrentUser (s : Store) : Option StoredUser :=
  s.user

/-- AuthService.getAccessToken. -/
def getAccessToken (s : Store) : Option String :=
  s.token

/-- AuthService.isLoggedIn: `!!(user && token)`; a present parsed user object
is always truthy, a present token string is truthy iff nonempty. -/
def isLoggedIn (s : Store) : Bool :=
  (getCurrentUser s).isSome &&
    (match getAccessToken s with
     | some t => !t.isEmpty
     | none => false)

/-- AuthService.refreshToken: replaces only the auth_token key, or fails with
the store untouched when the Cognito flag is on. -/
def refreshToken (FEATURES : Features) (now : DateTime) (s : Store) :
    Except String String × Store :=
  if FEATURES.USE_AMPLIFY_AUTH then
    (.error "Token refresh failed: AWS Cognito token refresh not yet implemented", s)
  else
    let newToken := "placeholder-token-refreshed-" ++ toString now.toMillis
    (.ok newToken, { s with token := some newToken })

/-- AuthService.resetPassword: a no-op placeholder unless the flag is on. -/
def resetPassword (FEATURES : Features) (_email : String) (s : Store) :
    Except String Unit × Store :=
  if FEATURES.USE_AMPLIFY_AUTH then
    (.error "Password reset failed: AWS Cognito password reset not yet implemented", s)
  else
    (.ok (), s)

/-- AuthService.verifyEmail: clears emailUnverified on the stored user record
if one exists. -/
def verifyEmail (FEATURES : Features) (_tok : String) (s : Store) :
    Except String Unit × Store :=
  if FEATURES.USE_AMPLIFY_AUTH then
    (.error "Email verification failed: AWS Cognito email verification not yet implemented", s)
  else
    match getCurrentUser s with
    | some u => (.ok (), { s with user := some { u with emailUnverified := some false } })
    | none => (.ok (), s)

end AuthService

/-- User as declared in src/contexts/AuthContext.tsx. -/
structure CtxUser where
  id : String
  phone : Option String
  email : String
  fullName : Option String
  companyName : Option String
  panNumber : Option String
  isOnboarded : Bool
  subscribed : Bool
  subscriptionTier : Option String
  subscriptionEnd : Option Nat
  phoneVerified : Option Bool
  emailUnverified : Option Bool
deriving DecidableEq, Repr

/-- In-memory state held by the AuthProvider: user, isLoading, emailUnverified. -/
structure CtxState where
  user : Option CtxUser
  isLoading : Bool
  emailUnverified : Bool
deriving DecidableEq, Repr

/-- Signup profile argument of the context signup operation. -/
structure SignupUserData where
  fullName : String
  phone : String
  vehicleNumber : String
deriving DecidableEq, Repr

/-- Profile argument of completeOnboarding. -/
structure OnboardingData where
  fullName : String
  mobileNo : String
  vehicleNumber : String
deriving DecidableEq, Repr

/-- Profile argument of updateProfile. -/
structure ProfileUpdateData where
  fullName : String
  companyName : String
  panNumber : String
  phone : String
deriving DecidableEq, Repr

inductive Tier where
  | semiannual
  | annual
deriving DecidableEq, Repr

def Tier.str : Tier → String
  | .semiannual => "semiannual"
  | .annual => "annual"

/-- Context user built from a service AuthResponse user (the userData literal
in the context login and signup handlers). -/
def ctxUserOfResponse (u : User) : CtxUser :=
  { id := u.id
    phone := u.phone
    email := u.email
    fullName := u.fullName
    companyName := none
    panNumber := none
    isOnboarded := u.isOnboarded
    subscribed := u.subscribed
    subscriptionTier := none
    subscriptionEnd := u.subscriptionEnd
    phoneVerified := none
    emailUnverified := u.emailUnverified }

namespace AuthContext

/-- Context login: delegates to the service; on success replaces the user and
mirrors emailUnverified (`x || false` is getD false); on failure returns the
message and leaves user untouched; isLoading ends false either way. -/
def login (FEATURES : Features) (now : DateTime) (email password : String)
    (c : CtxState) (s : Store) : Option String × CtxState × Store :=
  match AuthService.login FEATURES now { email := email, password := password } s with
  | (.ok response, s1) =>
      (none,
        { user := some (ctxUserOfResponse response.user)
          isLoading := false
          emailUnverified := response.user.emailUnverified.getD false }, s1)
  | (.error msg, s1) => (some msg, { c with isLoading := false }, s1)

/-- Context signup: delegates to the service signUp with the supplied profile
fields (vehicleNumber is not forwarded). -/
def signup (FEATURES : Features) (now : DateTime) (email password : String)
    (userData : SignupUserData) (c : CtxState) (s : Store) :
    Option String × CtxState × Store :=
  match AuthService.signUp FEATURES now
      { email := email, password := password,
        fullName := some userData.fullName, phone := some userData.phone } s with
  | (.ok response, s1) =>
      (none,
        { user := some (ctxUserOfResponse response.user)
          isLoading := false
          emailUnverified := response.user.emailUnverified.getD false }, s1)
  | (.error msg, s1) => (some msg, { c with isLoading := false }, s1)

/-- Context logout with the delegate outcome made explicit: the clears of user
and emailUnverified sit inside the try after the await, so they run only when
the delegate returns normally; when it throws, the catch just logs and only
the finally clause (isLoading := false) touches the state. -/
def logoutWith (delegateResult : Except Unit Store) (c : CtxState) (s : Store) :
    CtxState × Store :=
  match delegateResult with
  | .ok s1 => ({ user := none, isLoading := false, emailUnverified := false }, s1)
  | .error _ => ({ c with isLoading := false }, s)

/-- Context logout as composed in the repository: the delegate is
AuthService.logout, which never throws. -/
def logout (c : CtxState) (s : Store) : CtxState × Store :=
  logoutWith (.ok (AuthService.logout s)) c s

/-- completeOnboarding: false without a loaded user; otherwise merges the
supplied fields plus isOnboarded into the in-memory user and into the spread
of getCurrentUser() (which is the empty object when the key is absent). -/
def completeOnboarding (profileData : OnboardingData) (c : CtxState) (s : Store) :
    Bool × CtxState × Store :=
  match c.user with
  | none => (false, c, s)
  | some u =>
      let updatedUser : CtxUser :=
        { u with fullName := some profileData.fullName
                 phone := some profileData.mobileNo
                 isOnboarded := true }
      let base := (AuthService.getCurrentUser s).getD StoredUser.empty
      let stored : StoredUser :=
        { base with fullName := some profileData.fullName
                    phone := some profileData.mobileNo
                    isOnboarded := some true }
      (true, { c with user := some updatedUser }, { s with user := some stored })

/-- updateProfile: same shape as completeOnboarding with the four business
profile fields and no isOnboarded change. -/
def updateProfile (profileData : ProfileUpdateData) (c : CtxState) (s : Store) :
    Bool × CtxState × Store :=
  match c.user with
  | none => (false, c, s)
  | some u =>
      let updatedUser : CtxUser :=
        { u with fullName := some profileData.fullName
                 companyName := some profileData.companyName
                 panNumber := some profileData.panNumber
                 phone := some profileData.phone }
      let base := (AuthService.getCurrentUser s).getD StoredUser.empty
      let stored : StoredUser :=
        { base with fullName := some profileData.fullName
                    companyName := some profileData.companyName
                    panNumber := some profileData.panNumber
                    phone := some profileData.phone }
      (true, { c with user := some updatedUser }, { s with user := some stored })

/-- startTrial: trialEnd is setDate(getDate()+7) on the current date; merges
subscribed, tier trial and the end into memory and store; no-op without user. -/
def startTrial (now : DateTime) (c : CtxState) (s : Store) : CtxState × Store :=
  match c.user with
  | none => (c, s)
  | some u =>
      let trialEnd := DateTime.toMillis { now with day := now.day + 7 }
      let updatedUser : CtxUser :=
        { u with subscribed := true
                 subscriptionTier := some "trial"
                 subscriptionEnd := some trialEnd }
      let base := (AuthService.getCurrentUser s).getD StoredUser.empty
      let stored : StoredUser :=
        { base with subscribed := some true
                    subscriptionTier := some "trial"
                    subscriptionEnd := some trialEnd }
      ({ c with user := some updatedUser }, { s with user := some stored })

/-- setPaidSubscription: the end is setMonth(getMonth()+6) for semiannual and
setFullYear(getFullYear()+1) for annual; merges like startTrial. -/
def setPaidSubscription (now : DateTime) (tier : Tier) (c : CtxState) (s : Store) :
    CtxState × Store :=
  match c.user with
  | none => (c, s)
  | some u =>
      let subscriptionEnd :=
        match tier with
        | .semiannual => DateTime.toMillis { now with month := now.month + 6 }
        | .annual => DateTime.toMillis { now with year := now.year + 1 }
      let updatedUser : CtxUser :=
        { u with subscribed := true
                 subscriptionTier := some tier.str
                 subscriptionEnd := some subscriptionEnd }
      let base := (AuthService.getCurrentUser s).getD StoredUser.empty
      let stored : StoredUser :=
        { base with subscribed := some true
                    subscriptionTier := some tier.str
                    subscriptionEnd := some subscriptionEnd }
      ({ c with user := some updatedUser }, { s with user := some stored })

end AuthContext

/-- One invocation of any state-mutating operation of the Session Manager or
the Session Context, with the clock reading it observes. -/
inductive Op where
  | svcLogin (now : DateTime) (credentials : LoginCredentials)
  | svcSignUp (now : DateTime) (data : SignUpData)
  | svcLogout
  | svcRefreshToken (now : DateTime)
  | svcResetPassword (email : String)
  | svcVerifyEmail (tok : String)
  | ctxLogin (now : DateTime) (email password : String)
  | ctxSignup (now : DateTime) (email password : String) (userData : SignupUserData)
  | ctxLogoutOk
  | ctxLogoutThrow
  | ctxCompleteOnboarding (profileData : OnboardingData)
  | ctxUpdateProfile (profileData : ProfileUpdateData)
  | ctxStartTrial (now : DateTime)
  | ctxSetPaidSubscription (now : DateTime) (tier : Tier)
  | ctxResendVerificationEmail (email : String)
deriving DecidableEq, Repr

/-- Clock reading the operation takes, when it takes one. -/
def Op.time : Op → Option DateTime
  | .svcLogin now _ => some now
  | .svcSignUp now _ => some now
  | .svcRefreshToken now => some now
  | .ctxLogin now _ _ => some now
  | .ctxSignup now _ _ _ => some now
  | .ctxStartTrial now => some now
  | .ctxSetPaidSubscription now _ => some now
  | _ => none

/-- The clock reading, when present, has components a real clock produces. -/
def Op.timeValid (op : Op) : Bool :=
  match op.time with
  | some dt => dt.valid
  | none => true

/-- Combined small-step semantics: the state reached after one operation.
ctxLogoutThrow is the context logout run with a throwing delegate; svc
operations leave the in-memory context untouched. -/
def step (FEATURES : Features) (op : Op) (c : CtxState) (s : Store) :
    CtxState × Store :=
  match op with
  | .svcLogin now credentials => (c, (AuthService.login FEATURES now credentials s).2)
  | .svcSignUp now data => (c, (AuthService.signUp FEATURES now data s).2)
  | .svcLogout => (c, AuthService.logout s)
  | .svcRefreshToken now => (c, (AuthService.refreshToken FEATURES now s).2)
  | .svcResetPassword email => (c, (AuthService.resetPassword FEATURES email s).2)
  | .svcVerifyEmail tok => (c, (AuthService.verifyEmail FEATURES tok s).2)
  | .ctxLogin now email password => (AuthContext.login FEATURES now email password c s).2
  | .ctxSignup now email password userData =>
      (AuthContext.signup FEATURES now email password userData c s).2
  | .ctxLogoutOk => AuthContext.logout c s
  | .ctxLogoutThrow => AuthContext.logoutWith (.error ()) c s
  | .ctxCompleteOnboarding profileData => (AuthContext.completeOnboarding profileData c s).2
  | .ctxUpdateProfile profileData => (AuthContext.updateProfile profileData c s).2
  | .ctxStartTrial now => AuthContext.startTrial now c s
  | .ctxSetPaidSubscription now tier => AuthContext.setPaidSubscription now tier c s
  | .ctxResendVerificationEmail _ => (c, s)

/-- Subscription-relevant projection of the in-memory user record. -/
def CtxUser.subInfo (u : CtxUser) : Option Bool × Option Nat :=
  (some u.subscribed, u.subscriptionEnd)

/-- Subscription-relevant projection of the persisted user record. -/
def StoredUser.subInfo (su : StoredUser) : Option Bool × Option Nat :=
  (su.subscribed, su.subscriptionEnd)

/-- The (subscribed, subscriptionEnd) pairs of every user record the state
holds, in memory and persisted. -/
def subInfos (c : CtxState) (s : Store) : List (Option Bool × Option Nat) :=
  (match c.user with
    | some u => [u.subInfo]
    | none => []) ++
  (match s.user with
    | some su => [su.subInfo]
    | none => [])

theorem dayFromYear_succ (y : Nat) (h : 1970 ≤ y) :
    dayFromYear y + 365 ≤ dayFromYear (y + 1) := by
  unfold dayFromYear
  omega

theorem daysBeforeMonth_strictMono :
    ∀ l : Bool, ∀ n < 12, ∀ m < n, daysBeforeMonth l m < daysBeforeMonth l n := by
  decide

theorem daysBeforeMonth_le_335 :
    ∀ l : Bool, ∀ m < 12, daysBeforeMonth l m ≤ 335 := by
  decide

theorem millis_mono {a b ms : Nat} (h : a < b) :
    a * msPerDay + ms < b * msPerDay + ms := by
  unfold msPerDay
  omega

theorem toMillis_add_days (dt : DateTime) (k : Nat) (hk : 0 < k) (hd : 1 ≤ dt.day) :
    dt.toMillis < DateTime.toMillis { dt with day := dt.day + k } := by
  simp only [DateTime.toMillis]
  refine millis_mono ?_
  omega

theorem toMillis_add_six_months (dt : DateTime) (h : dt.valid = true) :
    dt.toMillis < DateTime.toMillis { dt with month := dt.month + 6 } := by
  simp only [DateTime.valid, Bool.and_eq_true, decide_eq_true_eq] at h
  obtain ⟨⟨⟨⟨hy, hm⟩, hd1⟩, hd2⟩, hms⟩ := h
  simp only [DateTime.toMillis]
  by_cases hsplit : dt.month + 6 < 12
  · have e1 : dt.month / 12 = 0 := by omega
    have e2 : dt.month % 12 = dt.month := by omega
    have e3 : (dt.month + 6) / 12 = 0 := by omega
    have e4 : (dt.month + 6) % 12 = dt.month + 6 := by omega
    rw [e1, e2, e3, e4]
    simp only [Nat.add_zero]
    have hlt := daysBeforeMonth_strictMono (isLeapYear dt.year) (dt.month + 6)
      (by omega) dt.month (by omega)
    refine millis_mono ?_
    omega
  · have e1 : dt.month / 12 = 0 := by omega
    have e2 : dt.month % 12 = dt.month := by omega
    have e3 : (dt.month + 6) / 12 = 1 := by omega
    have e4 : (dt.month + 6) % 12 = dt.month - 6 := by omega
    rw [e1, e2, e3, e4]
    simp only [Nat.add_zero]
    have h365 := dayFromYear_succ dt.year hy
    have hb1 := daysBeforeMonth_le_335 (isLeapYear dt.year) dt.month hm
    refine millis_mono ?_
    omega

theorem toMillis_add_year (dt : DateTime) (h : dt.valid = true) :
    dt.toMillis < DateTime.toMillis { dt with year := dt.year + 1 } := by
  simp only [DateTime.valid, Bool.and_eq_true, decide_eq_true_eq] at h
  obtain ⟨⟨⟨⟨hy, hm⟩, hd1⟩, hd2⟩, hms⟩ := h
  simp only [DateTime.toMillis]
  have e1 : dt.month / 12 = 0 := by omega
  have e2 : dt.month % 12 = dt.month := by omega
  rw [e1, e2]
  simp only [Nat.add_zero]
  have h365 := dayFromYear_succ dt.year hy
  have hb1 := daysBeforeMonth_le_335 (isLeapYear dt.year) dt.month hm
  have hb2 := daysBeforeMonth_le_335 (isLeapYear (dt.year + 1)) dt.month hm
  refine millis_mono ?_
  omega

/-- Concrete clock reading: 2024-01-15T00:00:00Z. -/
def dt0 : DateTime :=
  { year := 2024, month := 0, day := 15, msOfDay := 0 }

/-- Concrete in-memory user for counterexamples. -/
def ctxUser0 : CtxUser :=
  { id := "u1", phone := none, email := "driver@example.com", fullName := some "A Driver",
    companyName := none, panNumber := none, isOnboarded := true, subscribed := false,
    subscriptionTier := none, subscriptionEnd := none, phoneVerified := none,
    emailUnverified := some false }

/-- Concrete persisted user record for counterexamples. -/
def storedUser0 : StoredUser :=
  { StoredUser.empty with
    id := some "u1"
    email := some "driver@example.com"
    isOnboarded := some true
    subscribed := some false
    emailUnverified := some false }

/-- Store with no session present. -/
def store0 : Store :=
  { user := none, token := none, refreshToken := none }

/-- Store holding a full session. -/
def store1 : Store :=
  { user := some storedUser0, token := some "tok1", refreshToken := some "ref1" }

theorem placeholder_token_not_empty (t : String) :
    ("placeholder-token-" ++ t).isEmpty = false := by
  have h18 : "placeholder-token-".length = 18 := rfl
  rw [Bool.eq_false_iff]
  intro hcon
  have h2 : ("placeholder-token-" ++ t) = "" := (String.isEmpty_iff _).mp hcon
  have h3 := congrArg String.length h2
  rw [String.length_append, h18] at h3
  simp at h3

/-- C5: with the real-authentication flag disabled, login(email, password)
succeeds with the supplied email on the returned user, and immediately
afterwards isLoggedIn() is true and the persisted record read back by
getCurrentUser() carries the supplied email. -/
theorem c5_login_then_logged_in (d : Bool) (now : DateTime)
    (credentials : LoginCredentials) (s : Store) :
    (∃ response, (AuthService.login ⟨false, d⟩ now credentials s).1 = .ok response ∧
        response.user.email = credentials.email) ∧
    AuthService.isLoggedIn (AuthService.login ⟨false, d⟩ now credentials s).2 = true ∧
    (AuthService.getCurrentUser (AuthService.login ⟨false, d⟩ now credentials s).2).bind
        StoredUser.email = some credentials.email := by
  refine ⟨⟨_, rfl, rfl⟩, ?_, rfl⟩
  simp [AuthService.login, AuthService.isLoggedIn, AuthService.getCurrentUser,
    AuthService.getAccessToken, placeholder_token_not_empty]

/-- C6: from every starting store, logout (a total operation: its catch
clause repeats the clear, so no error surfaces) leaves isLoggedIn() false and
getCurrentUser() none, and running it twice equals running it once. -/
theorem c6_logout_total_idempotent (s : Store) :
    AuthService.isLoggedIn (AuthService.logout s) = false ∧
    AuthService.getCurrentUser (AuthService.logout s) = none ∧
    AuthService.logout (AuthService.logout s) = AuthService.logout s :=
  ⟨rfl, rfl, rfl⟩

/-- Write of a serialized full User record to the auth_user key. -/
def writeUserRecord (s : Store) (u : User) : Store :=
  { s with user := some (serializeUser u) }

/-- C7: writing any representable User record (absent optional fields
included) to the user key and re-reading it through getCurrentUser() yields
the serialized record unchanged, and that record determines the original
User field for field (deserializeUser recovers it exactly). -/
theorem c7_user_record_roundtrip (s : Store) (u : User) :
    AuthService.getCurrentUser (writeUserRecord s u) = some (serializeUser u) ∧
    deserializeUser (serializeUser u) = some u :=
  ⟨rfl, rfl⟩

/-- C8: with a loaded user, completeOnboarding returns true and rewrites the
in-memory user with the supplied fullName, the supplied mobileNo as phone and
isOnboarded true (isLoading and emailUnverified untouched); with no loaded
user it returns false and leaves the whole context state and the store
unchanged. -/
theorem c8_completeOnboarding_cases (profileData : OnboardingData) (s : Store) :
    (∀ (u : CtxUser) (l e : Bool),
      (AuthContext.completeOnboarding profileData ⟨some u, l, e⟩ s).1 = true ∧
      (AuthContext.completeOnboarding profileData ⟨some u, l, e⟩ s).2.1 =
        ⟨some { u with
                fullName := some profileData.fullName
                phone := some profileData.mobileNo
                isOnboarded := true }, l, e⟩) ∧
    (∀ l e : Bool,
      (AuthContext.completeOnboarding profileData ⟨none, l, e⟩ s).1 = false ∧
      (AuthContext.completeOnboarding profileData ⟨none, l, e⟩ s).2.1 = ⟨none, l, e⟩ ∧
      (AuthContext.completeOnboarding profileData ⟨none, l, e⟩ s).2.2 = s) :=
  ⟨fun _ _ _ => ⟨rfl, rfl⟩, fun _ _ => ⟨rfl, rfl, rfl⟩⟩

/-- C9: with the real-authentication flag disabled, refreshToken() writes the
newly synthesized value to the token key and leaves the user and
refresh-token keys exactly as they were; with the flag enabled it fails with
the auth failure message and the store is untouched. -/
theorem c9_refreshToken_frame (d : Bool) (now : DateTime) (s : Store) :
    ((AuthService.refreshToken ⟨false, d⟩ now s).1 =
        .ok ("placeholder-token-refreshed-" ++ toString now.toMillis) ∧
      (AuthService.refreshToken ⟨false, d⟩ now s).2 =
        { user := s.user,
          token := some ("placeholder-token-refreshed-" ++ toString now.toMillis),
          refreshToken := s.refreshToken }) ∧
    (AuthService.refreshToken ⟨true, d⟩ now s).1 =
      .error "Token refresh failed: AWS Cognito token refresh not yet implemented" ∧
    (AuthService.refreshToken ⟨true, d⟩ now s).2 = s :=
  ⟨⟨rfl, rfl⟩, rfl, rfl⟩

/-- C10: with an in-memory user loaded but the persisted user key absent,
completeOnboarding still returns true and persists a record holding only
fullName, phone and isOnboarded — id and email are absent, nothing is
repaired. -/
theorem c10_onboarding_bare_write (profileData : OnboardingData) (u : CtxUser)
    (l e : Bool) (tok ref : Option String) :
    (AuthContext.completeOnboarding profileData ⟨some u, l, e⟩ ⟨none, tok, ref⟩).1 = true ∧
    (AuthContext.completeOnboarding profileData ⟨some u, l, e⟩ ⟨none, tok, ref⟩).2.2.user =
      some { StoredUser.empty with
             fullName := some profileData.fullName
             phone := some profileData.mobileNo
             isOnboarded := some true } ∧
    ((AuthContext.completeOnboarding profileData ⟨some u, l, e⟩ ⟨none, tok, ref⟩).2.2.user.bind
        StoredUser.id = none) ∧
    ((AuthContext.completeOnboarding profileData ⟨some u, l, e⟩ ⟨none, tok, ref⟩).2.2.user.bind
        StoredUser.email = none) :=
  ⟨rfl, rfl, rfl, rfl⟩

/-- C1 as frozen fails on the code at this input: the clears of user and
emailUnverified sit inside the try block after the awaited delegate, so when
the delegate throws, the catch only logs and the context still shows the
logged-in user after logout returns. -/
theorem c1_counterexample :
    (AuthContext.logoutWith (.error ()) ⟨some ctxUser0, false, false⟩ store1).1.user =
      some ctxUser0 :=
  rfl

/-- C1 amended: whenever the delegate returns normally the context logout
clears user and emailUnverified before returning — in particular the composed
logout always does, because AuthService.logout never throws — but when the
delegate throws, user and emailUnverified keep their previous values and only
isLoading is reset. -/
theorem c1_logout_clearing (c : CtxState) (s : Store) :
    ((AuthContext.logout c s).1.user = none ∧
      (AuthContext.logout c s).1.emailUnverified = false) ∧
    (∀ s1 : Store, (AuthContext.logoutWith (.ok s1) c s).1.user = none ∧
      (AuthContext.logoutWith (.ok s1) c s).1.emailUnverified = false) ∧
    ((AuthContext.logoutWith (.error ()) c s).1.user = c.user ∧
      (AuthContext.logoutWith (.error ()) c s).1.emailUnverified = c.emailUnverified) :=
  ⟨⟨rfl, rfl⟩, fun _ => ⟨rfl, rfl⟩, rfl, rfl⟩

/-- C3 as frozen fails on the code at this input: a successful login from the
anonymous state yields a user whose isOnboarded flag is already true, not
false — the placeholder login synthesizes a pre-onboarded user. -/
theorem c3_counterexample :
    ((AuthService.login ⟨false, false⟩ dt0 ⟨"driver@example.com", "pw"⟩ store0).1.map
      fun response => response.user.isOnboarded) = .ok true :=
  rfl

/-- C3 amended: a successful signup yields an authenticated user with
onboarding incomplete and completeOnboarding then flips it to complete, but a
successful login yields a user that is already onboarded (placeholder user),
so login does not pass through the onboarded:false state. -/
theorem c3_onboarding_transitions (d : Bool) (now : DateTime) (email password : String)
    (userData : SignupUserData) (c : CtxState) (s : Store)
    (profileData : OnboardingData) :
    ((AuthContext.signup ⟨false, d⟩ now email password userData c s).2.1.user.map
      CtxUser.isOnboarded = some false) ∧
    ((AuthContext.login ⟨false, d⟩ now email password c s).2.1.user.map
      CtxUser.isOnboarded = some true) ∧
    (∀ (u : CtxUser) (l e : Bool),
      (AuthContext.completeOnboarding profileData ⟨some u, l, e⟩ s).2.1.user.map
        CtxUser.isOnboarded = some true) :=
  ⟨rfl, rfl, fun _ _ _ => rfl⟩

/-- C2 as frozen fails on the code at this input: startTrial updates the
persisted session — the user record changes — while the token and
refresh-token keys keep their old values byte for byte, so the operation
writes a strict subset of the three keys. -/
theorem c2_counterexample :
    ((AuthContext.startTrial dt0 ⟨some ctxUser0, false, false⟩ store1).2.user ≠
      store1.user) ∧
    (AuthContext.startTrial dt0 ⟨some ctxUser0, false, false⟩ store1).2.token =
      store1.token ∧
    (AuthContext.startTrial dt0 ⟨some ctxUser0, false, false⟩ store1).2.refreshToken =
      store1.refreshToken := by
  refine ⟨?_, rfl, rfl⟩
  decide

/-- C2 amended: login and signUp write all three keys together and logout
clears all three together, but the remaining session-updating operations
write strict subsets: refreshToken rewrites only the token key, and
verifyEmail, completeOnboarding, updateProfile, startTrial and
setPaidSubscription rewrite only the user key, each leaving the other two
keys unchanged. -/
theorem c2_store_key_writes (d : Bool) (now : DateTime) (credentials : LoginCredentials)
    (data : SignUpData) (tok : String) (s : Store) (c : CtxState)
    (profileData : OnboardingData) (pu : ProfileUpdateData) (tier : Tier) :
    ((AuthService.login ⟨false, d⟩ now credentials s).2 =
      { user := some (serializeUser (AuthService.placeholderLoginUser now credentials))
        token := some ("placeholder-token-" ++ toString now.toMillis)
        refreshToken := some ("placeholder-refresh-" ++ toString now.toMillis) }) ∧
    ((AuthService.signUp ⟨false, d⟩ now data s).2 =
      { user := some (serializeUser (AuthService.placeholderSignUpUser now data))
        token := some ("placeholder-token-" ++ toString now.toMillis)
        refreshToken := some ("placeholder-refresh-" ++ toString now.toMillis) }) ∧
    (AuthService.logout s = { user := none, token := none, refreshToken := none }) ∧
    ((AuthService.refreshToken ⟨false, d⟩ now s).2.user = s.user ∧
      (AuthService.refreshToken ⟨false, d⟩ now s).2.refreshToken = s.refreshToken) ∧
    ((AuthService.verifyEmail ⟨false, d⟩ tok s).2.token = s.token ∧
      (AuthService.verifyEmail ⟨false, d⟩ tok s).2.refreshToken = s.refreshToken) ∧
    ((AuthContext.completeOnboarding profileData c s).2.2.token = s.token ∧
      (AuthContext.completeOnboarding profileData c s).2.2.refreshToken = s.refreshToken) ∧
    ((AuthContext.updateProfile pu c s).2.2.token = s.token ∧
      (AuthContext.updateProfile pu c s).2.2.refreshToken = s.refreshToken) ∧
    ((AuthContext.startTrial now c s).2.token = s.token ∧
      (AuthContext.startTrial now c s).2.refreshToken = s.refreshToken) ∧
    ((AuthContext.setPaidSubscription now tier c s).2.token = s.token ∧
      (AuthContext.setPaidSubscription now tier c s).2.refreshToken = s.refreshToken) := by
  obtain ⟨su, tk, rk⟩ := s
  obtain ⟨cu, l, e⟩ := c
  cases su <;> cases cu <;>
    exact ⟨rfl, rfl, rfl, ⟨rfl, rfl⟩, ⟨rfl, rfl⟩, ⟨rfl, rfl⟩, ⟨rfl, rfl⟩, ⟨rfl, rfl⟩,
      ⟨rfl, rfl⟩⟩

/-- C4: one step of any session operation, taken at a clock reading with
plausible components, yields a state in which each (subscribed,
subscriptionEnd) pair of a user record — in memory or persisted — either
already occurred in the previous state (the operation carried the pair over
unchanged), or does not mark the record subscribed, or carries an end that was
freshly written and lies strictly after the clock reading of the operation.
Thus every operation preserves the invariant that a subscribed record has a
subscriptionEnd that was in the future at the moment it was set. -/
theorem c4_subscription_end_fresh (FEATURES : Features) (op : Op) (c : CtxState)
    (s : Store) (hv : op.timeValid = true) :
    ∀ p ∈ subInfos (step FEATURES op c s).1 (step FEATURES op c s).2,
      p ∈ subInfos c s ∨ p.1 ≠ some true ∨
        ∃ dt e, op.time = some dt ∧ p.2 = some e ∧ dt.toMillis < e := by
  obtain ⟨cu, l, ev⟩ := c
  obtain ⟨su, tk, rk⟩ := s
  intro p hp
  cases op with
  | svcLogin now credentials =>
      cases hA : FEATURES.USE_AMPLIFY_AUTH
      · cases cu with
        | none =>
            simp [step, AuthService.login, hA, subInfos, serializeUser,
              AuthService.placeholderLoginUser, StoredUser.subInfo, StoredUser.empty] at hp
            subst hp
            right; right
            exact ⟨now, _, rfl, rfl, by omega⟩
        | some u =>
            simp [step, AuthService.login, hA, subInfos, serializeUser,
              AuthService.placeholderLoginUser, StoredUser.subInfo, StoredUser.empty] at hp
            rcases hp with rfl | rfl
            · left; simp [subInfos]
            · right; right
              exact ⟨now, _, rfl, rfl, by omega⟩
      · left
        simpa [step, AuthService.login, hA] using hp
  | svcSignUp now data =>
      cases hA : FEATURES.USE_AMPLIFY_AUTH
      · cases cu with
        | none =>
            simp [step, AuthService.signUp, hA, subInfos, serializeUser,
              AuthService.placeholderSignUpUser, StoredUser.subInfo, StoredUser.empty] at hp
            subst hp
            right; left
            simp
        | some u =>
            simp [step, AuthService.signUp, hA, subInfos, serializeUser,
              AuthService.placeholderSignUpUser, StoredUser.subInfo, StoredUser.empty] at hp
            rcases hp with rfl | rfl
            · left; simp [subInfos]
            · right; left
              simp
      · left
        simpa [step, AuthService.signUp, hA] using hp
  | svcLogout =>
      left
      rcases cu with _ | u
      · simp [step, AuthService.logout, subInfos] at hp
      · simp [step, AuthService.logout, subInfos] at hp
        subst hp
        simp [subInfos]
  | svcRefreshToken now =>
      left
      cases hA : FEATURES.USE_AMPLIFY_AUTH <;>
        simpa [step, AuthService.refreshToken, hA, subInfos] using hp
  | svcResetPassword email =>
      left
      cases hA : FEATURES.USE_AMPLIFY_AUTH <;>
        simpa [step, AuthService.resetPassword, hA, subInfos] using hp
  | svcVerifyEmail tok =>
      left
      cases hA : FEATURES.USE_AMPLIFY_AUTH
      · cases su with
        | none =>
            simpa [step, AuthService.verifyEmail, AuthService.getCurrentUser, hA,
              subInfos] using hp
        | some w =>
            rcases cu with _ | u
            · simp [step, AuthService.verifyEmail, AuthService.getCurrentUser, hA,
                subInfos, StoredUser.subInfo] at hp
              subst hp
              simp [subInfos, StoredUser.subInfo]
            · simp [step, AuthService.verifyEmail, AuthService.getCurrentUser, hA,
                subInfos, StoredUser.subInfo] at hp
              rcases hp with rfl | rfl
              · simp [subInfos]
              · simp [subInfos, StoredUser.subInfo]
      · simpa [step, AuthService.verifyEmail, hA, subInfos] using hp
  | ctxLogin now email password =>
      cases hA : FEATURES.USE_AMPLIFY_AUTH
      · simp [step, AuthContext.login, AuthService.login, hA, subInfos, serializeUser,
          ctxUserOfResponse, AuthService.placeholderLoginUser, StoredUser.subInfo,
          CtxUser.subInfo, StoredUser.empty] at hp
        rcases hp with rfl | rfl <;>
        · right; right
          exact ⟨now, _, rfl, rfl, by omega⟩
      · left
        simpa [step, AuthContext.login, AuthService.login, hA, subInfos] using hp
  | ctxSignup now email password userData =>
      cases hA : FEATURES.USE_AMPLIFY_AUTH
      · simp [step, AuthContext.signup, AuthService.signUp, hA, subInfos, serializeUser,
          ctxUserOfResponse, AuthService.placeholderSignUpUser, StoredUser.subInfo,
          CtxUser.subInfo, StoredUser.empty] at hp
        rcases hp with rfl | rfl <;>
        · right; left
          simp
      · left
        simpa [step, AuthContext.signup, AuthService.signUp, hA, subInfos] using hp
  | ctxLogoutOk =>
      simp [step, AuthContext.logout, AuthContext.logoutWith, AuthService.logout,
        subInfos] at hp
  | ctxLogoutThrow =>
      left
      simpa [step, AuthContext.logoutWith, subInfos] using hp
  | ctxCompleteOnboarding profileData =>
      rcases cu with _ | u
      · left
        simpa [step, AuthContext.completeOnboarding, subInfos] using hp
      · simp [step, AuthContext.completeOnboarding, AuthService.getCurrentUser,
          subInfos, CtxUser.subInfo, StoredUser.subInfo, StoredUser.empty] at hp
        rcases su with _ | w
        · rcases hp with rfl | rfl
          · left; simp [subInfos, CtxUser.subInfo]
          · right; left
            simp
        · rcases hp with rfl | rfl
          · left; simp [subInfos, CtxUser.subInfo]
          · left; simp [subInfos, StoredUser.subInfo]
  | ctxUpdateProfile profileData =>
      rcases cu with _ | u
      · left
        simpa [step, AuthContext.updateProfile, subInfos] using hp
      · simp [step, AuthContext.updateProfile, AuthService.getCurrentUser,
          subInfos, CtxUser.subInfo, StoredUser.subInfo, StoredUser.empty] at hp
        rcases su with _ | w
        · rcases hp with rfl | rfl
          · left; simp [subInfos, CtxUser.subInfo]
          · right; left
            simp
        · rcases hp with rfl | rfl
          · left; simp [subInfos, CtxUser.subInfo]
          · left; simp [subInfos, StoredUser.subInfo]
  | ctxStartTrial now =>
      have hval : now.valid = true := hv
      have hd : 1 ≤ now.day := by
        simp only [DateTime.valid, Bool.and_eq_true, decide_eq_true_eq] at hval
        exact hval.1.1.2
      rcases cu with _ | u
      · left
        simpa [step, AuthContext.startTrial, subInfos] using hp
      · simp [step, AuthContext.startTrial, AuthService.getCurrentUser,
          subInfos, CtxUser.subInfo, StoredUser.subInfo, StoredUser.empty] at hp
        have hend := toMillis_add_days now 7 (by norm_num) hd
        rcases su with _ | w <;>
        · rcases hp with rfl | rfl <;>
          · right; right
            exact ⟨now, _, rfl, rfl, hend⟩
  | ctxSetPaidSubscription now tier =>
      have hval : now.valid = true := hv
      rcases cu with _ | u
      · left
        simpa [step, AuthContext.setPaidSubscription, subInfos] using hp
      · cases tier with
        | semiannual =>
            simp [step, AuthContext.setPaidSubscription, AuthService.getCurrentUser,
              Tier.str, subInfos, CtxUser.subInfo, StoredUser.subInfo,
              StoredUser.empty] at hp
            have hend := toMillis_add_six_months now hval
            rcases su with _ | w <;>
            · rcases hp with rfl | rfl <;>
              · right; right
                exact ⟨now, _, rfl, rfl, hend⟩
        | annual =>
            simp [step, AuthContext.setPaidSubscription, AuthService.getCurrentUser,
              Tier.str, subInfos, CtxUser.subInfo, StoredUser.subInfo,
              StoredUser.empty] at hp
            have hend := toMillis_add_year now hval
            rcases su with _ | w <;>
            · rcases hp with rfl | rfl <;>
              · right; right
                exact ⟨now, _, rfl, rfl, hend⟩
  | ctxResendVerificationEmail email =>
      left
      simpa [step] using hp

/-- End computed by a trial started at dt0. -/
def trialEnd0 : Nat :=
  DateTime.toMillis { dt0 with day := dt0.day + 7 }

/-- Witness: c4_subscription_end_fresh instantiated at a concrete startTrial
step from a concrete logged-in, unsubscribed state. -/
theorem c4_subscription_end_fresh_witness :
    (Op.ctxStartTrial dt0).timeValid = true ∧
    ((some true, some trialEnd0) ∈
      subInfos
        (step ⟨false, false⟩ (Op.ctxStartTrial dt0) ⟨some ctxUser0, false, false⟩ store1).1
        (step ⟨false, false⟩ (Op.ctxStartTrial dt0) ⟨some ctxUser0, false, false⟩ store1).2) ∧
    ((some true, some trialEnd0) ∈ subInfos ⟨some ctxUser0, false, false⟩ store1 ∨
      (some true, some trialEnd0).1 ≠ some true ∨
      ∃ dt e, (Op.ctxStartTrial dt0).time = some dt ∧
        (some true, some trialEnd0).2 = some e ∧ dt.toMillis < e) :=
  ⟨by decide, by decide,
    c4_subscription_end_fresh ⟨false, false⟩ (Op.ctxStartTrial dt0)
      ⟨some ctxUser0, false, false⟩ store1 (by decide)
      (some true, some trialEnd0) (by decide)⟩
